import Mathlib

/-!
Verification development for the `pipx run` command module
(`src/pipx/commands/run.py`): requirement extraction from script headers,
the environment-fingerprint scheme, the ephemeral venv cache lifecycle,
app resolution inside a freshly installed package, and the advisory
version checker.

Modelling conventions:
* Pure string manipulation is embedded over `String` viewed as its list of
  characters (`String.data`), mirroring the Python operations
  (`startswith`, slicing, `strip`, `join`) character by character.
* Timestamps (`st_ctime`, `time.mktime(...)`) are modelled as `Int`
  seconds; only differences and order comparisons of timestamps occur in
  the source.
* Filesystem facts that a run reads (does a marker exist, what is its
  creation time, which cache entries exist) are passed in as explicit
  arguments; filesystem and process effects a run performs are returned
  as an explicit event trace (`Ev`).
* External collaborators (the SHA-256 hex digest, the
  `packaging.requirements.Requirement` parser, the PyPI page fetch, the
  `packaging.version` parser) are parameters of the embedding: the claims
  under study only depend on how their results are used, never on their
  internals.
-/

namespace PipxRun

/-- Decidable equality for `Except`, used to evaluate the embedding on
concrete inputs. -/
def exceptDecEq {ε α : Type} [DecidableEq ε] [DecidableEq α] :
    DecidableEq (Except ε α)
  | .error a, .error b =>
    if h : a = b then isTrue (congrArg Except.error h)
    else isFalse fun hc => h (Except.error.inj hc)
  | .error _, .ok _ => isFalse fun hc => Except.noConfusion hc
  | .ok _, .error _ => isFalse fun hc => Except.noConfusion hc
  | .ok a, .ok b =>
    if h : a = b then isTrue (congrArg Except.ok h)
    else isFalse fun hc => h (Except.ok.inj hc)

instance {ε α : Type} [DecidableEq ε] [DecidableEq α] :
    DecidableEq (Except ε α) := exceptDecEq

/-! ### Python string primitives -/

/-- Models Python `line.startswith("#")`: true exactly when the very first
character is `'#'`. -/
def pyStartswithHash (s : String) : Bool :=
  match s.data with
  | [] => false
  | c :: _ => c == '#'

/-- Models Python `line[1:]`: drop the first character. -/
def pyDrop1 (s : String) : String := ⟨s.data.drop 1⟩

/-- Models Python `str.strip()`: remove leading and trailing whitespace. -/
def pyStrip (s : String) : String :=
  ⟨((s.data.dropWhile Char.isWhitespace).reverse.dropWhile
      Char.isWhitespace).reverse⟩

/-- Models Python `s[:n]`: the first `n` characters. -/
def pyTake (s : String) (n : Nat) : String := ⟨s.data.take n⟩

/-- Models Python `"".join(xs)`: separator-free concatenation. -/
def pyJoin (l : List String) : String := ⟨(l.map String.data).flatten⟩

/-- Models Python `sep.join(xs)`. -/
def joinSep (sep : String) : List String → String
  | [] => ""
  | [x] => x
  | x :: y :: xs => x ++ sep ++ joinSep sep (y :: xs)

/-- Substring relation on strings (`a` occurs contiguously inside `b`),
used to state which pieces of text an error message carries. -/
abbrev strInfix (a b : String) : Prop := a.data <:+: b.data

/-! ### Requirement extraction (`_get_requirements_from_script`, lines 388-425)

The Python function iterates over `content.splitlines()`; the embedding
takes the list of lines directly.  The `packaging` requirement parser is
the parameter `p : String → Except String String`; on success it returns
the normalised serialisation `str(Requirement(line_content))`, on failure
the parser complaint `str(e)`. -/

/-- The sentinel test of lines 395-398: a comment line whose content,
after stripping the comment marker and surrounding whitespace, equals
`Requirements:`. -/
def isSentinelLine (l : String) : Bool :=
  pyStartswithHash l && (pyStrip (pyDrop1 l) == "Requirements:")

/-- First loop of `_get_requirements_from_script` (lines 394-402):
skip lines until a sentinel comment line; return the remaining lines
after that sentinel, or `none` if the iterator is exhausted
(the Python `for ... else: return None`). -/
def findBlock : List String → Option (List String)
  | [] => none
  | l :: ls => if isSentinelLine l then some ls else findBlock ls

/-- Second loop of `_get_requirements_from_script` (lines 404-425):
consume comment lines, stopping at a non-comment line or a blank comment
line; each remaining line's stripped content must parse, a failure raises
`PipxError(f"Invalid requirement {line_content}: {str(e)}")`; successes
contribute their normalised form, in order. -/
def collectReqs (p : String → Except String String) :
    List String → Except String (List String)
  | [] => .ok []
  | l :: ls =>
    if !(pyStartswithHash l) then .ok []
    else
      let line_content := pyStrip (pyDrop1 l)
      if line_content == "" then .ok []
      else
        match p line_content with
        | .error e =>
          .error ("Invalid requirement " ++ line_content ++ ": " ++ e)
        | .ok r =>
          match collectReqs p ls with
          | .error e2 => .error e2
          | .ok rs => .ok (r :: rs)

/-- `_get_requirements_from_script` over the script's lines: `.ok none`
when no `Requirements:` sentinel comment exists, otherwise the collected
block (or the first parse error). -/
def _get_requirements_from_script (p : String → Except String String)
    (script_lines : List String) : Except String (Option (List String)) :=
  match findBlock script_lines with
  | none => .ok none
  | some rest =>
    match collectReqs p rest with
    | .error e => .error e
    | .ok requirements => .ok (some requirements)

/-! ### Fingerprint engine (`_get_temporary_venv_path`, lines 338-352) -/

/-- Models `_get_temporary_venv_path`: feed the SHA-256 digest (abstracted
as `hashHex`, mapping the fed byte string to its hex digest) the
separator-free concatenation of the requirements, then the python spec,
then the concatenated pip args, then the concatenated venv args
(the successive `m.update(...)` calls hash the concatenation of their
arguments); the cache directory name is the 15-character prefix of the
hex digest. -/
def _get_temporary_venv_path (hashHex : String → String)
    (pipx_venv_cachedir : String) (requirements : List String)
    (python : String) (pip_args venv_args : List String) : String :=
  let digest :=
    hashHex (pyJoin requirements ++ python ++ pyJoin pip_args ++
      pyJoin venv_args)
  let venv_folder_name := pyTake digest 15
  pipx_venv_cachedir ++ "/" ++ venv_folder_name

/-! ### Cache expiration and sweeping (lines 355-375) -/

/-- Models `_is_temporary_venv_expired`: age (now minus creation time, in
seconds) strictly exceeds `60*60*24*TEMP_VENV_EXPIRATION_THRESHOLD_DAYS`,
or the `pipx_expired_venv` marker file exists in the directory.  The
threshold in days is a parameter (`pipx.constants` is outside this
module). -/
def _is_temporary_venv_expired (threshold_days : Nat)
    (created_time_sec now_sec : Int) (marker_exists : Bool) : Bool :=
  decide (now_sec - created_time_sec >
    60 * 60 * 24 * (threshold_days : Int)) || marker_exists

/-- A cache entry as the sweep sees it: directory name, creation time,
presence of the `pipx_expired_venv` marker. -/
structure CEntry where
  name : String
  created : Int
  marker : Bool
deriving DecidableEq

/-- Filesystem and process effects a run performs, in order. -/
inductive Ev where
  | removeDir (dir : String)
  | createVenv (dir : String)
  | installPkg (dir : String)
  | touchExpiredMarker (dir : String)
  | execApp (argv : List String)
  | runApp (dir app : String)
deriving DecidableEq

/-- Models `_remove_all_expired_venvs`: delete every cache entry that is
expired. -/
def _remove_all_expired_venvs (threshold_days : Nat) (now_sec : Int)
    (entries : List CEntry) : List Ev :=
  (entries.filter fun e =>
      _is_temporary_venv_expired threshold_days e.created now_sec e.marker
    ).map fun e => Ev.removeDir e.name

/-- Models `_prepare_venv_cache`: with caching disabled, remove the cached
venv up front when the expected binary exists (`bin_path is None or
bin_path.exists()`; script runs pass `bin_path = None`), then sweep all
expired entries. -/
def _prepare_venv_cache (threshold_days : Nat) (now_sec : Int)
    (entries : List CEntry) (venv_dir : String)
    (bin_path_exists : Option Bool) (use_cache : Bool) : List Ev :=
  (if !use_cache && bin_path_exists.getD true then [Ev.removeDir venv_dir]
   else []) ++ _remove_all_expired_venvs threshold_days now_sec entries

/-! ### App resolution inside a package (`_download_and_run`, lines 305-335) -/

/-- One line of the `all_apps` listing (line 319):
`f"{a} - usage: 'pipx run --spec {package_or_url} {a} [arguments?]'"`. -/
def exampleLine (package_or_url a : String) : String :=
  a ++ " - usage: \x27pipx run --spec " ++ package_or_url ++ " " ++ a ++
    " [arguments?]\x27"

/-- `APP_NOT_FOUND_ERROR_MESSAGE.format(...)` (lines 37-40). -/
def appNotFoundMessage (app package_name app_lines : String) : String :=
  "\x27" ++ app ++ "\x27 executable script not found in package \x27" ++
    package_name ++ "\x27.\nAvailable executable scripts:\n    " ++
    app_lines

/-- Models lines 305-329 of `_download_and_run`: if the requested app is
present, keep it; otherwise, if the requested name equals the package
name and the package declares exactly one app, substitute that app
(re-deriving the platform filename); otherwise raise `PipxError` with the
app listing.  Returns the effective `(app, app_filename)` pair. -/
def resolveApp (has_app : Bool) (app app_filename package_name
    package_or_url : String) (apps : List String) (windows : Bool) :
    Except String (String × String) :=
  if has_app then .ok (app, app_filename)
  else if app == package_name && apps.length == 1 then
    let a := apps.headD ""
    .ok (a, if windows then a ++ ".exe" else a)
  else
    .error (appNotFoundMessage app package_name
      (joinSep "\n    " (apps.map (exampleLine package_or_url))))

/-- Trace model of `_download_and_run` (lines 274-335): create the venv
and install the package, resolve the app (raising on failure), then — iff
caching is disabled — touch the `pipx_expired_venv` marker so a future
sweep removes the directory, and finally run the app.  `apps` is the
installed package's declared app list, `has_app_after_install` the result
of `venv.has_app` after installation. -/
def _download_and_run (venv_dir package_or_url app app_filename
    package_name : String) (apps : List String)
    (has_app_after_install windows use_cache : Bool) :
    List Ev × Option String :=
  let pre := [Ev.createVenv venv_dir, Ev.installPkg venv_dir]
  match resolveApp has_app_after_install app app_filename package_name
      package_or_url apps windows with
  | .error e => (pre, some e)
  | .ok r =>
    (pre ++
      (if !use_cache then [Ev.touchExpiredMarker venv_dir] else []) ++
      [Ev.runApp venv_dir r.1], none)

/-- Trace model of `run_package` from the cache lookup onward (lines
125-168; the `__pypackages__` early exit and the PATH warning of lines
114-144 touch neither the cache nor the run decision modelled here).
`bin_path_exists` is `(venv.bin_path / app_filename).exists()` before the
prepare step, `has_app_cached` the `venv.has_app` result on the cached
venv. -/
def run_package (hashHex : String → String) (pipx_venv_cachedir : String)
    (app package_or_url : String) (python : String)
    (pip_args venv_args : List String) (windows use_cache : Bool)
    (bin_path_exists has_app_cached : Bool) (package_name : String)
    (apps : List String) (has_app_after_install : Bool)
    (threshold_days : Nat) (now_sec : Int) (entries : List CEntry) :
    List Ev × Option String :=
  let app_filename := if windows then app ++ ".exe" else app
  let venv_dir := _get_temporary_venv_path hashHex pipx_venv_cachedir
    [package_or_url] python pip_args venv_args
  let prep := _prepare_venv_cache threshold_days now_sec entries venv_dir
    (some bin_path_exists) use_cache
  if has_app_cached then (prep ++ [Ev.runApp venv_dir app], none)
  else
    let dr := _download_and_run venv_dir package_or_url app app_filename
      package_name apps has_app_after_install windows use_cache
    (prep ++ dr.1, dr.2)

/-- Trace model of `run_script` (lines 71-101): extract the requirements;
with no `Requirements:` header, exec the ambient interpreter directly on
the script content; otherwise compute the fingerprint path, prepare the
cache (script runs pass `bin_path = None`), build the venv when the
directory does not survive the prepare step, and exec the venv's
interpreter on the content.  No expiration marker is ever touched on this
path. -/
def run_script (p : String → Except String String)
    (hashHex : String → String) (pipx_venv_cachedir : String)
    (content_lines : List String) (app_args : List String)
    (python : String) (pip_args venv_args : List String)
    (use_cache : Bool) (venv_exists_after_prepare : Bool)
    (threshold_days : Nat) (now_sec : Int) (entries : List CEntry) :
    List Ev × Option String :=
  match _get_requirements_from_script p content_lines with
  | .error e => ([], some e)
  | .ok none =>
    ([Ev.execApp ([python, "-c", joinSep "\n" content_lines] ++ app_args)],
      none)
  | .ok (some requirements) =>
    let venv_dir := _get_temporary_venv_path hashHex pipx_venv_cachedir
      requirements python pip_args venv_args
    let prep := _prepare_venv_cache threshold_days now_sec entries
      venv_dir none use_cache
    let build :=
      if venv_exists_after_prepare then []
      else [Ev.createVenv venv_dir, Ev.installPkg venv_dir]
    (prep ++ build ++
      [Ev.execApp ([venv_dir ++ "/python", "-c",
        joinSep "\n" content_lines] ++ app_args)], none)

/-! ### Advisory version checker (`check_version`, lines 214-272) -/

/-- Models line 220, `package_venv = PIPX_LOCAL_VENVS / "{app}"`.  The
source appends the literal string `"{app}"` (the `f` prefix is missing),
so the result does not depend on `app`. -/
def version_check_dir (pipx_local_venvs app : String) : String :=
  pipx_local_venvs ++ "/\x7bapp\x7d"

/-- The advisory marker path `package_venv / "pipx_version_check"`
consulted and written by `check_version`. -/
def version_check_path (pipx_local_venvs app : String) : String :=
  version_check_dir pipx_local_venvs app ++ "/pipx_version_check"

/-- Models `_is_version_check_expired` (lines 235-241): stat the marker
file (raising `FileNotFoundError` when it does not exist) and compare its
age against 24 hours in seconds, strictly. -/
def _is_version_check_expired (marker_exists : Bool)
    (marker_ctime now_sec : Int) : Except String Bool :=
  if marker_exists then
    .ok (decide (now_sec - marker_ctime > 60 * 60 * 24))
  else .error "FileNotFoundError"

/-- Models `_get_latest_version` (lines 243-272): on a request failure it
prints a diagnostic and returns `None`; on success it parses the page and
prints the latest version, but the function body contains no `return` on
that path, so it also returns `None`. -/
def _get_latest_version (oracle_response : Except String String) :
    Option String :=
  match oracle_response with
  | .error _ => none
  | .ok _ => none

/-- Models `packaging.version.parse` applied to the value returned by
`_get_latest_version`: `version.parse(None)` raises `TypeError`; on a
string, the abstract parser `vparse` decides. -/
def version_parse (vparse : String → Except String (List Nat)) :
    Option String → Except String (List Nat)
  | none => .error "TypeError"
  | some s => vparse s

/-- Strict ordering on parsed versions (shortlex on release components),
standing in for `packaging.version`'s strict `>`. -/
def verLt : List Nat → List Nat → Bool
  | _, [] => false
  | [], _ :: _ => true
  | a :: as, b :: bs =>
    if a < b then true else if b < a then false else verLt as bs

/-- Observable outcome of one `check_version(app)` call: either an
exception escapes the function (with a record of whether the marker file
had been rewritten before the raise), or it completes, recording whether
the marker was rewritten and whether `pipx upgrade` was spawned. -/
inductive AdvisoryOutcome where
  | raised (marker_written : Bool) (err : String)
  | completed (marker_written upgraded : Bool)
deriving DecidableEq

/-- Models `check_version` (lines 219-233).  The guard is line 222,
`(package_venv / "pipx_version_check").exists() or
_is_version_check_expired(package_venv)` — note the first disjunct is
`exists()`, not `not exists()`, and `or` short-circuits.  Inside the
branch the marker is rewritten, then the latest version is fetched and
compared to the installed one, upgrading on a strict increase;
any exception escapes (there is no handler). -/
def check_version (marker_exists : Bool) (marker_ctime now_sec : Int)
    (oracle_response : Except String String) (installed_version : String)
    (vparse : String → Except String (List Nat)) : AdvisoryOutcome :=
  let guard : Except String Bool :=
    if marker_exists then .ok true
    else _is_version_check_expired marker_exists marker_ctime now_sec
  match guard with
  | .error e => .raised false e
  | .ok false => .completed false false
  | .ok true =>
    let latest_version := _get_latest_version oracle_response
    match version_parse vparse latest_version with
    | .error e => .raised true e
    | .ok latest =>
      match vparse installed_version with
      | .error e => .raised true e
      | .ok current => .completed true (verLt current latest)

/-! ## Supporting lemmas -/

/-- Every string is a substring of itself. -/
theorem strInfix_refl (a : String) : strInfix a a := List.infix_refl a.data

/-- A substring of `b` is a substring of `b ++ c`. -/
theorem strInfix_append_right (a b c : String) (h : strInfix a b) :
    strInfix a (b ++ c) := by
  obtain ⟨s, t, hst⟩ := h
  exact ⟨s, t ++ c.data, by rw [String.data_append, ← hst]; simp⟩

/-- A substring of `c` is a substring of `b ++ c`. -/
theorem strInfix_append_left (a b c : String) (h : strInfix a c) :
    strInfix a (b ++ c) := by
  obtain ⟨s, t, hst⟩ := h
  exact ⟨b.data ++ s, t, by rw [String.data_append, ← hst]; simp⟩

/-- Each mapped element occurs as a substring of the separator-joined
image of its list. -/
theorem strInfix_joinSep (sep : String) (f : String → String) :
    ∀ (l : List String) (a : String), a ∈ l →
      strInfix (f a) (joinSep sep (l.map f))
  | [], a, ha => absurd ha (List.not_mem_nil a)
  | [y], a, ha => by
    have hay : a = y := by simpa using ha
    subst hay
    simp only [List.map, joinSep]
    exact strInfix_refl (f a)
  | y :: z :: zs, a, ha => by
    have hj : joinSep sep ((y :: z :: zs).map f) =
        (f y ++ sep) ++ joinSep sep ((z :: zs).map f) := rfl
    rw [hj]
    rcases List.mem_cons.mp ha with h1 | h2
    · subst h1
      exact strInfix_append_right _ _ _
        (strInfix_append_right _ _ _ (strInfix_refl (f a)))
    · exact strInfix_append_left _ _ _ (strInfix_joinSep sep f (z :: zs) a h2)

/-- The sentinel test, spelled out. -/
theorem isSentinelLine_eq_false_iff (l : String) :
    isSentinelLine l = false ↔
      ¬(pyStartswithHash l = true ∧ pyStrip (pyDrop1 l) = "Requirements:") := by
  constructor
  · intro h hc
    have : isSentinelLine l = true := by
      simp [isSentinelLine, hc.1, hc.2]
    rw [h] at this
    exact Bool.false_ne_true this
  · intro h
    cases hb : isSentinelLine l with
    | false => rfl
    | true =>
      exfalso
      apply h
      have := hb
      simp only [isSentinelLine, Bool.and_eq_true, beq_iff_eq] at this
      exact this

/-- The first loop returns `None` exactly when no sentinel line occurs. -/
theorem findBlock_eq_none_iff :
    ∀ lines : List String,
      findBlock lines = none ↔ ∀ l ∈ lines, isSentinelLine l = false
  | [] => by simp [findBlock]
  | l :: ls => by
    cases hb : isSentinelLine l with
    | true => simp [findBlock, hb]
    | false => simp [findBlock, hb, findBlock_eq_none_iff ls]

/-- The first loop breaks at the first sentinel line and hands the
remaining lines to the second loop. -/
theorem findBlock_append_sentinel :
    ∀ (pre : List String) (sent : String) (rest : List String),
      (∀ l ∈ pre, isSentinelLine l = false) → isSentinelLine sent = true →
      findBlock (pre ++ sent :: rest) = some rest
  | [], sent, rest, _, hsent => by simp [findBlock, hsent]
  | p :: ps, sent, rest, hpre, hsent => by
    have hp : isSentinelLine p = false := hpre p (List.mem_cons_self p ps)
    simp only [List.cons_append, findBlock, hp, Bool.false_eq_true,
      if_false]
    exact findBlock_append_sentinel ps sent rest
      (fun l hl => hpre l (List.mem_cons_of_mem p hl)) hsent

/-- A non-comment line ends the requirement block no matter what follows
it: the lines before it alone determine the result. -/
theorem collectReqs_stop_at_non_comment (p : String → Except String String)
    (l : String) (hl : pyStartswithHash l = false) :
    ∀ (good ls : List String),
      collectReqs p (good ++ l :: ls) = collectReqs p good
  | [], ls => by simp [collectReqs, hl]
  | g :: gs, ls => by
    simp only [List.cons_append, collectReqs]
    cases hg : pyStartswithHash g with
    | false => simp
    | true =>
      simp only [Bool.not_true, Bool.false_eq_true, if_false]
      cases hc : (pyStrip (pyDrop1 g) == "") with
      | true => simp
      | false =>
        simp only [Bool.false_eq_true, if_false]
        cases hp : p (pyStrip (pyDrop1 g)) with
        | error e => simp
        | ok r => simp [collectReqs_stop_at_non_comment p l hl gs ls]

/-- An empty tail, a non-comment line, or a blank comment line at the
head of the block yields the empty requirement list. -/
theorem collectReqs_terminator (p : String → Except String String)
    (rest : List String)
    (h : rest = [] ∨ ∃ l ls, rest = l :: ls ∧
      (pyStartswithHash l = false ∨ pyStrip (pyDrop1 l) = "")) :
    collectReqs p rest = .ok [] := by
  rcases h with rfl | ⟨l, ls, rfl, h2⟩
  · rfl
  · rcases h2 with h2 | h2
    · simp [collectReqs, h2]
    · cases hsw : pyStartswithHash l <;> simp [collectReqs, hsw, h2]

/-- The second loop aborts at the first malformed specifier, with the
exact `PipxError` message; the parsed lines before it raise nothing and
the lines after it are never consulted. -/
theorem collectReqs_first_error (p : String → Except String String)
    (bad : String) (after : List String) (e : String)
    (hbad1 : pyStartswithHash bad = true)
    (hbad2 : pyStrip (pyDrop1 bad) ≠ "")
    (hbadp : p (pyStrip (pyDrop1 bad)) = .error e) :
    ∀ good : List String,
      (∀ l ∈ good, pyStartswithHash l = true ∧ pyStrip (pyDrop1 l) ≠ "" ∧
        ∃ r, p (pyStrip (pyDrop1 l)) = .ok r) →
      collectReqs p (good ++ bad :: after) =
        .error ("Invalid requirement " ++ pyStrip (pyDrop1 bad) ++ ": " ++ e)
  | [], _ => by
    have hb2 : (pyStrip (pyDrop1 bad) == "") = false := by
      simpa using hbad2
    simp [collectReqs, hbad1, hb2, hbadp]
  | g :: gs, hgood => by
    obtain ⟨hg1, hg2, r, hg3⟩ := hgood g (List.mem_cons_self g gs)
    have hg2' : (pyStrip (pyDrop1 g) == "") = false := by simpa using hg2
    have ih := collectReqs_first_error p bad after e hbad1 hbad2 hbadp gs
      (fun l hl => hgood l (List.mem_cons_of_mem g hl))
    simp [collectReqs, hg1, hg2', hg3, ih]

/-! ## Claim theorems -/

/-- Claim C1 (code_bug evidence): the advisory check is gated by
`(marker).exists() or _is_version_check_expired(...)`, not by the
marker's absence.  With a one-hour-old marker present the check is
attempted anyway — the marker is overwritten and the (always failing)
version comparison raises `TypeError`; with the marker absent the guard
calls `_is_version_check_expired`, whose `stat()` on the missing file
raises `FileNotFoundError`, so no check or marker write ever happens. -/
theorem check_version_gate_code_bug :
    check_version true 0 3600 (.ok "html") "1.0" (fun _ => .ok [1]) =
      .raised true "TypeError" ∧
    check_version false 0 3600 (.ok "html") "1.0" (fun _ => .ok [1]) =
      .raised false "FileNotFoundError" := ⟨rfl, rfl⟩

/-- Claim C2 (code_bug evidence): far from being non-fatal, every call of
`check_version` that the guard lets proceed raises — `_get_latest_version`
returns `None` on both the unreachable-oracle path and the success path
(its success branch never returns its result), so `version.parse(None)`
raises `TypeError`; and when the marker is absent the guard itself raises
`FileNotFoundError`.  In every case an exception escapes the advisory
checker into `run()`. -/
theorem check_version_always_raises (marker_exists : Bool)
    (marker_ctime now_sec : Int) (oracle_response : Except String String)
    (installed_version : String)
    (vparse : String → Except String (List Nat)) :
    ∃ w e, check_version marker_exists marker_ctime now_sec
      oracle_response installed_version vparse = .raised w e := by
  cases marker_exists with
  | false => exact ⟨false, "FileNotFoundError", rfl⟩
  | true => cases oracle_response <;> exact ⟨true, "TypeError", rfl⟩

/-- Claim C4: a cache entry is expired iff the explicit marker is present
or its age strictly exceeds the threshold (in days, converted to
seconds); an entry whose age equals the threshold exactly, with no
marker, is not expired. -/
theorem temporary_venv_expired_iff (threshold_days : Nat)
    (created now : Int) (marker : Bool) :
    (_is_temporary_venv_expired threshold_days created now marker = true ↔
      (marker = true ∨
        now - created > 60 * 60 * 24 * (threshold_days : Int))) ∧
    (marker = false →
      now - created = 60 * 60 * 24 * (threshold_days : Int) →
      _is_temporary_venv_expired threshold_days created now marker =
        false) := by
  constructor
  · simp only [_is_temporary_venv_expired, Bool.or_eq_true,
      decide_eq_true_eq]
    tauto
  · intro hm he
    simp [_is_temporary_venv_expired, hm, he]

/-- Witness for C4 at the exact boundary: with a 14-day threshold, age
exactly `14 * 86400` seconds and no marker is not expired. -/
theorem temporary_venv_expired_iff_witness :
    (false : Bool) = false ∧
    (1209600 : Int) - 0 = 60 * 60 * 24 * ((14 : Nat) : Int) ∧
    _is_temporary_venv_expired 14 0 1209600 false = false :=
  ⟨rfl, by decide,
    (temporary_venv_expired_iff 14 0 1209600 false).2 rfl (by decide)⟩

/-- Claim C8: the cache path is the cache root joined with the
15-character prefix of the hex digest of the separator-free
concatenation (requirements, then interpreter spec, then pip args, then
venv args); hence two requirement lists with equal concatenations and
identical remaining inputs yield the identical path. -/
theorem venv_path_from_concatenation (hashHex : String → String)
    (cachedir python : String) (pip_args venv_args : List String)
    (r1 r2 : List String) (h : pyJoin r1 = pyJoin r2) :
    _get_temporary_venv_path hashHex cachedir r1 python pip_args
        venv_args =
      cachedir ++ "/" ++
        pyTake (hashHex (pyJoin r1 ++ python ++ pyJoin pip_args ++
          pyJoin venv_args)) 15 ∧
    _get_temporary_venv_path hashHex cachedir r1 python pip_args
        venv_args =
      _get_temporary_venv_path hashHex cachedir r2 python pip_args
        venv_args := by
  refine ⟨rfl, ?_⟩
  unfold _get_temporary_venv_path
  rw [h]

/-- Witness for C8: `["ab"]` and `["a", "b"]` concatenate equally, so
they share a cache directory. -/
theorem venv_path_from_concatenation_witness :
    pyJoin ["ab"] = pyJoin ["a", "b"] ∧
    _get_temporary_venv_path id "C" ["ab"] "py" [] [] =
      _get_temporary_venv_path id "C" ["a", "b"] "py" [] [] :=
  ⟨by decide,
    (venv_path_from_concatenation id "C" "py" [] [] ["ab"] ["a", "b"]
      (by decide)).2⟩

/-- Claim C9 (code_bug evidence): line 220 appends the literal string
`"{app}"` (the `f` prefix is missing), so the marker path is the same
for every application name — distinct applications share one marker
file, and it does not lie in any application's own directory. -/
theorem version_check_path_ignores_app (pipx_local_venvs a b : String) :
    version_check_path pipx_local_venvs a =
      version_check_path pipx_local_venvs b := rfl

/-- Claim C5: when the requested app is absent from the freshly
provisioned environment, the single declared app is substituted and run
exactly when the requested name equals the package name and the package
declares exactly one app; in every other case the run raises a
`PipxError` whose message contains the originally requested app name and,
for every declared app, its example invocation line. -/
theorem download_and_run_app_resolution (venv_dir package_or_url app
    app_filename package_name : String) (apps : List String)
    (windows use_cache : Bool) :
    (∀ a, app = package_name → apps = [a] →
      _download_and_run venv_dir package_or_url app app_filename
          package_name apps false windows use_cache =
        ([Ev.createVenv venv_dir, Ev.installPkg venv_dir] ++
          (if !use_cache then [Ev.touchExpiredMarker venv_dir] else []) ++
          [Ev.runApp venv_dir a], none)) ∧
    (¬(app = package_name ∧ apps.length = 1) →
      ∃ msg,
        _download_and_run venv_dir package_or_url app app_filename
            package_name apps false windows use_cache =
          ([Ev.createVenv venv_dir, Ev.installPkg venv_dir], some msg) ∧
        strInfix app msg ∧
        ∀ a ∈ apps, strInfix (exampleLine package_or_url a) msg) := by
  constructor
  · intro a hname happs
    subst hname
    subst happs
    simp [_download_and_run, resolveApp]
  · intro hno
    have hcond : (app == package_name && apps.length == 1) = false := by
      rcases Decidable.em (app = package_name) with h1 | h1
      · rcases Decidable.em (apps.length = 1) with h2 | h2
        · exact absurd ⟨h1, h2⟩ hno
        · simp [h2]
      · simp [h1]
    refine ⟨appNotFoundMessage app package_name
      (joinSep "\n    " (apps.map (exampleLine package_or_url))), ?_, ?_, ?_⟩
    · simp [_download_and_run, resolveApp, hcond]
    · unfold appNotFoundMessage
      exact strInfix_append_right _ _ _ (strInfix_append_right _ _ _
        (strInfix_append_right _ _ _ (strInfix_append_right _ _ _
          (strInfix_append_left _ _ _ (strInfix_refl app)))))
    · intro a ha
      unfold appNotFoundMessage
      exact strInfix_append_left _ _ _
        (strInfix_joinSep "\n    " (exampleLine package_or_url) apps a ha)

/-- Witness for C5 at the spec's scenario: package `foo` declaring apps
`a` and `b`, requested as `foo` — the run fails with a message containing
`foo` and the example invocation of each declared app. -/
theorem download_and_run_app_resolution_witness :
    ¬(("foo" : String) = "foo" ∧ (["a", "b"] : List String).length = 1) ∧
    ∃ msg,
      _download_and_run "V" "foo" "foo" "foo" "foo" ["a", "b"] false
          false true =
        ([Ev.createVenv "V", Ev.installPkg "V"], some msg) ∧
      strInfix "foo" msg ∧
      ∀ a ∈ ["a", "b"], strInfix (exampleLine "foo" a) msg :=
  ⟨by decide,
    (download_and_run_app_resolution "V" "foo" "foo" "foo" "foo"
      ["a", "b"] false true).2 (by decide)⟩

/-- Claim C6: extraction returns `None` iff no comment line strips to the
sentinel `Requirements:`; a sentinel immediately followed by end of
input, a non-comment line, or a blank comment line yields the empty list
(not `None`); `run_script` on a `None` result execs the ambient
interpreter directly, while any extracted list — the empty one
included — routes through the fingerprinted isolated-environment cache
path. -/
theorem requirements_none_iff_and_routing
    (p : String → Except String String) :
    (∀ script_lines, _get_requirements_from_script p script_lines =
        .ok none ↔
      ∀ l ∈ script_lines,
        ¬(pyStartswithHash l = true ∧
          pyStrip (pyDrop1 l) = "Requirements:")) ∧
    (∀ (pre : List String) (sent : String) (rest : List String),
      (∀ l ∈ pre, isSentinelLine l = false) →
      isSentinelLine sent = true →
      (rest = [] ∨ ∃ l ls, rest = l :: ls ∧
        (pyStartswithHash l = false ∨ pyStrip (pyDrop1 l) = "")) →
      _get_requirements_from_script p (pre ++ sent :: rest) =
        .ok (some [])) ∧
    (∀ (hashHex : String → String) (cachedir : String)
        (content_lines app_args : List String) (python : String)
        (pip_args venv_args : List String) (use_cache vex : Bool)
        (days : Nat) (now : Int) (entries : List CEntry),
      (_get_requirements_from_script p content_lines = .ok none →
        run_script p hashHex cachedir content_lines app_args python
            pip_args venv_args use_cache vex days now entries =
          ([Ev.execApp ([python, "-c", joinSep "\n" content_lines] ++
            app_args)], none)) ∧
      (∀ requirements,
        _get_requirements_from_script p content_lines =
          .ok (some requirements) →
        run_script p hashHex cachedir content_lines app_args python
            pip_args venv_args use_cache vex days now entries =
          (_prepare_venv_cache days now entries
              (_get_temporary_venv_path hashHex cachedir requirements
                python pip_args venv_args) none use_cache ++
            (if vex then []
             else [Ev.createVenv (_get_temporary_venv_path hashHex
                cachedir requirements python pip_args venv_args),
              Ev.installPkg (_get_temporary_venv_path hashHex cachedir
                requirements python pip_args venv_args)]) ++
            [Ev.execApp ([(_get_temporary_venv_path hashHex cachedir
                requirements python pip_args venv_args) ++ "/python",
              "-c", joinSep "\n" content_lines] ++ app_args)],
            none))) := by
  refine ⟨?_, ?_, ?_⟩
  · intro script_lines
    constructor
    · intro hres l hl hc
      cases hfb : findBlock script_lines with
      | none =>
        have hns := (findBlock_eq_none_iff script_lines).mp hfb l hl
        exact (isSentinelLine_eq_false_iff l).mp hns hc
      | some rest =>
        rw [_get_requirements_from_script, hfb] at hres
        cases hcr : collectReqs p rest with
        | error e => simp [hcr] at hres
        | ok rs => simp [hcr] at hres
    · intro h
      have hfb : findBlock script_lines = none :=
        (findBlock_eq_none_iff script_lines).mpr
          (fun l hl => (isSentinelLine_eq_false_iff l).mpr (h l hl))
      simp [_get_requirements_from_script, hfb]
  · intro pre sent rest hpre hsent hterm
    simp [_get_requirements_from_script,
      findBlock_append_sentinel pre sent rest hpre hsent,
      collectReqs_terminator p rest hterm]
  · intro hashHex cachedir content_lines app_args python pip_args
      venv_args use_cache vex days now entries
    constructor
    · intro hnone
      simp [run_script, hnone]
    · intro requirements hsome
      simp [run_script, hsome]

/-- Witness for C6: a script whose last line is the bare sentinel
extracts the empty requirement list, not `None`. -/
theorem requirements_none_iff_and_routing_witness :
    _get_requirements_from_script (fun s => .ok s)
      (["print(1)"] ++ "# Requirements:" :: []) = .ok (some []) :=
  (requirements_none_iff_and_routing (fun s => .ok s)).2.1
    ["print(1)"] "# Requirements:" [] (by decide) (by decide)
    (Or.inl rfl)

/-- Claim C7: a malformed specifier inside the block raises a fatal
`PipxError` whose message carries the offending line's as-written
specifier text (its content after the comment marker and surrounding
whitespace are stripped, before any normalisation) and the parser's
complaint; lines after the first malformed one are never consulted, and
the successfully parsed lines before it raise nothing on their own. -/
theorem requirements_first_malformed_line
    (p : String → Except String String) (pre : List String)
    (sent : String) (good : List String) (bad : String)
    (after : List String) (e : String)
    (hpre : ∀ l ∈ pre, isSentinelLine l = false)
    (hsent : isSentinelLine sent = true)
    (hgood : ∀ l ∈ good, pyStartswithHash l = true ∧
      pyStrip (pyDrop1 l) ≠ "" ∧ ∃ r, p (pyStrip (pyDrop1 l)) = .ok r)
    (hbad1 : pyStartswithHash bad = true)
    (hbad2 : pyStrip (pyDrop1 bad) ≠ "")
    (hbadp : p (pyStrip (pyDrop1 bad)) = .error e) :
    _get_requirements_from_script p (pre ++ sent :: (good ++ bad :: after)) =
      .error ("Invalid requirement " ++ pyStrip (pyDrop1 bad) ++ ": " ++
        e) ∧
    strInfix (pyStrip (pyDrop1 bad))
      ("Invalid requirement " ++ pyStrip (pyDrop1 bad) ++ ": " ++ e) ∧
    strInfix e
      ("Invalid requirement " ++ pyStrip (pyDrop1 bad) ++ ": " ++ e) := by
  refine ⟨?_, ?_, ?_⟩
  · simp [_get_requirements_from_script,
      findBlock_append_sentinel pre sent _ hpre hsent,
      collectReqs_first_error p bad after e hbad1 hbad2 hbadp good hgood]
  · exact strInfix_append_right _ _ _ (strInfix_append_right _ _ _
      (strInfix_append_left _ _ _ (strInfix_refl _)))
  · exact strInfix_append_left _ _ _ (strInfix_refl e)

/-- Witness for C7: block `# good` then `# bad` then `# later`, with a
parser accepting only `good`: extraction fails with the message naming
`bad` and the complaint `boom`, and never reaches `# later`. -/
theorem requirements_first_malformed_line_witness :
    _get_requirements_from_script
        (fun s => if s == "good" then .ok "good" else .error "boom")
        (["x"] ++ "# Requirements:" ::
          (["# good"] ++ "# bad" :: ["# later"])) =
      .error ("Invalid requirement " ++ pyStrip (pyDrop1 "# bad") ++
        ": " ++ "boom") ∧
    strInfix (pyStrip (pyDrop1 "# bad"))
      ("Invalid requirement " ++ pyStrip (pyDrop1 "# bad") ++ ": " ++
        "boom") ∧
    strInfix "boom"
      ("Invalid requirement " ++ pyStrip (pyDrop1 "# bad") ++ ": " ++
        "boom") :=
  requirements_first_malformed_line
    (fun s => if s == "good" then .ok "good" else .error "boom")
    ["x"] "# Requirements:" ["# good"] "# bad" ["# later"] "boom"
    (by decide) (by decide)
    (by
      intro l hl
      have hlg : l = "# good" := by simpa using hl
      subst hlg
      exact ⟨by decide, by decide, "good", by decide⟩)
    (by decide) (by decide) (by decide)

/-- Claim C10: a line is recognised as a comment only when its very first
character is `#`.  An indented line is skipped by the sentinel scan
without opening a block (the whole extraction behaves as if the line were
absent), and inside a block an indented line terminates the block: the
result is whatever the preceding block lines alone produce, with no
contribution from the indented line or anything after it. -/
theorem comment_lines_need_leading_hash
    (p : String → Except String String) (l : String)
    (h : pyStartswithHash l = false) :
    (∀ ls, _get_requirements_from_script p (l :: ls) =
      _get_requirements_from_script p ls) ∧
    (∀ good ls, collectReqs p (good ++ l :: ls) = collectReqs p good) := by
  constructor
  · intro ls
    have hs : isSentinelLine l = false := by
      simp [isSentinelLine, h]
    rw [_get_requirements_from_script, _get_requirements_from_script,
      findBlock, hs]
    simp
  · exact fun good ls => collectReqs_stop_at_non_comment p l h good ls

/-- Witness for C10 with the indented line `   # Requirements:`: it never
opens a block, and inside a block it ends the block. -/
theorem comment_lines_need_leading_hash_witness :
    pyStartswithHash "   # Requirements:" = false ∧
    _get_requirements_from_script (fun s => .ok s)
        ("   # Requirements:" :: ["# x"]) =
      _get_requirements_from_script (fun s => .ok s) ["# x"] ∧
    collectReqs (fun s => .ok s)
        (["# a"] ++ "   # Requirements:" :: ["# b"]) =
      collectReqs (fun s => .ok s) ["# a"] :=
  ⟨by decide,
    (comment_lines_need_leading_hash (fun s => .ok s)
      "   # Requirements:" (by decide)).1 ["# x"],
    (comment_lines_need_leading_hash (fun s => .ok s)
      "   # Requirements:" (by decide)).2 ["# a"] ["# b"]⟩

/-- Claim C3 counterexample: a script run (`run_script`) with caching
disabled that freshly builds its environment never touches the
`pipx_expired_venv` marker — the trace creates the venv and execs, with
no marker write before (or after) execution, so the claim's "script run
or package run" fails on the script side. -/
theorem run_script_no_cache_no_marker_cex :
    Ev.createVenv "C/0123456789abcde" ∈
      (run_script (fun s => .ok s) (fun _ => "0123456789abcdefX") "C"
        ["# Requirements:", "# a"] [] "py" [] [] false false 14 0 []).1 ∧
    Ev.touchExpiredMarker "C/0123456789abcde" ∉
      (run_script (fun s => .ok s) (fun _ => "0123456789abcdefX") "C"
        ["# Requirements:", "# a"] [] "py" [] [] false false 14 0 []).1 ∧
    (run_script (fun s => .ok s) (fun _ => "0123456789abcdefX") "C"
        ["# Requirements:", "# a"] [] "py" [] [] false false 14 0 []).2 =
      none := by decide

/-- Claim C3 (amended to package runs): a package run with caching
disabled whose environment is freshly built (`has_app` fails on the
cached venv) touches the expiration marker in the fingerprint directory
immediately before running the app, and after the fresh venv is created
the trace contains no removal of that directory — it is left for a later
invocation's sweep. -/
theorem run_package_no_cache_marker_before_run (hashHex : String → String)
    (cachedir app package_or_url python : String)
    (pip_args venv_args : List String) (windows bin_path_exists : Bool)
    (package_name : String) (apps : List String)
    (has_app_after_install : Bool) (threshold_days : Nat) (now_sec : Int)
    (entries : List CEntry) (v : String) (eff : String × String)
    (hv : v = _get_temporary_venv_path hashHex cachedir [package_or_url]
      python pip_args venv_args)
    (hres : resolveApp has_app_after_install app
        (if windows then app ++ ".exe" else app) package_name
        package_or_url apps windows = .ok eff) :
    (run_package hashHex cachedir app package_or_url python pip_args
        venv_args windows false bin_path_exists false package_name apps
        has_app_after_install threshold_days now_sec entries).1 =
      _prepare_venv_cache threshold_days now_sec entries v
          (some bin_path_exists) false ++
        [Ev.createVenv v, Ev.installPkg v, Ev.touchExpiredMarker v,
          Ev.runApp v eff.1] ∧
    (run_package hashHex cachedir app package_or_url python pip_args
        venv_args windows false bin_path_exists false package_name apps
        has_app_after_install threshold_days now_sec entries).2 = none ∧
    Ev.removeDir v ∉
      [Ev.createVenv v, Ev.installPkg v, Ev.touchExpiredMarker v,
        Ev.runApp v eff.1] := by
  subst hv
  refine ⟨?_, ?_, by simp⟩
  · simp [run_package, _download_and_run, hres]
  · simp [run_package, _download_and_run, hres]

/-- Witness for C3's amended theorem on a concrete no-cache package run:
the marker write immediately precedes the app run and nothing deletes the
fresh directory afterwards. -/
theorem run_package_no_cache_marker_before_run_witness :
    resolveApp true "a" (if false then "a" ++ ".exe" else "a") "a" "a"
      ["a"] false = .ok ("a", "a") ∧
    (run_package id "C" "a" "a" "py" [] [] false false true false "a"
        ["a"] true 14 0 []).1 =
      _prepare_venv_cache 14 0 [] "C/apy" (some true) false ++
        [Ev.createVenv "C/apy", Ev.installPkg "C/apy",
          Ev.touchExpiredMarker "C/apy", Ev.runApp "C/apy" "a"] ∧
    (run_package id "C" "a" "a" "py" [] [] false false true false "a"
        ["a"] true 14 0 []).2 = none ∧
    Ev.removeDir "C/apy" ∉
      [Ev.createVenv "C/apy", Ev.installPkg "C/apy",
        Ev.touchExpiredMarker "C/apy", Ev.runApp "C/apy" "a"] :=
  ⟨rfl,
    run_package_no_cache_marker_before_run id "C" "a" "a" "py" [] []
      false true "a" ["a"] true 14 0 [] "C/apy" ("a", "a") (by decide)
      rfl⟩

end PipxRun
